import Mathlib

/-!
# Lightnode core: shallow embedding and verification

This file embeds, in Lean 4, the parts of the Setheum-Foundation/lightnode
repository that its specification makes claims about, and settles each claim
against the embedding:

* the in-memory TTL cache and its iterator (package `store`);
* the burn-log watcher round `watchLogShiftOuts` and the fetch goroutine of
  `EthBurnLogFetcher.FetchBurnLogs` (package `watcher`);
* the resolver's `txChecker` (`Run`, `verify` error path, `checkDuplicate`);
* the `Dispatcher` (`Handle`, `multiAddrs`, `FirstResponseIterator`).

Go machine integers (`uint64`) are embedded as `Nat` with explicit reduction
modulo `2 ^ 64` where the code can wrap.  Fallible Go code is embedded with
`Except` / `Option`; a Go runtime panic is an explicit constructor of the
result type.  External collaborators (the `transform` validation package, the
ethereum client, the redis client, JSON marshalling) appear only through their
results, which are parameters of the embedded functions.
-/

namespace Lightnode

/-! ## Store package: the in-memory TTL cache (`store.cache`)

The Go `cache` holds `data : map[string][]byte`, `lastSeen : map[string]int64`
and `timeToLive : int64`.  We embed the maps as association lists whose keys
are unique (Go maps cannot hold a key twice); values are opaque strings. -/

/-- Association-list lookup: the value stored under `k`, if any. -/
def assocLookup {α : Type} (l : List (String × α)) (k : String) : Option α :=
  (l.find? (fun p => p.1 == k)).map (fun p => p.2)

/-- Association-list update with Go-map semantics: replace the binding of `k`
if present, otherwise append a fresh binding. -/
def assocSet {α : Type} (l : List (String × α)) (k : String) (v : α) :
    List (String × α) :=
  match l with
  | [] => [(k, v)]
  | (k', v') :: rest =>
    if k' == k then (k, v) :: rest else (k', v') :: assocSet rest k v

/-- The state of `store.cache`: `data`, `lastSeen` and `timeToLive`.  Times
are `Int` (Go `int64` Unix seconds; realistic values never wrap). -/
structure CacheState where
  data : List (String × String)
  lastSeen : List (String × Int)
  timeToLive : Int

/-- Embeds `store.NewCache`: empty maps, the given TTL. -/
def newCache (timeToLive : Int) : CacheState :=
  { data := [], lastSeen := [], timeToLive := timeToLive }

/-- The errors `cache.Read` can return (`ErrKeyNotFound`, `ErrDataExpired`). -/
inductive ReadErr where
  | keyNotFound
  | dataExpired
  deriving DecidableEq, Repr

/-- Embeds `cache.Read` at wall-clock time `now` (the code's `time.Now().Unix()`):
if `timeToLive > 0`, first consult `lastSeen` — absent gives `ErrKeyNotFound`,
a stale stamp gives `ErrDataExpired` — then look the value up in `data`. -/
def cacheRead (c : CacheState) (now : Int) (key : String) :
    Except ReadErr String :=
  if 0 < c.timeToLive then
    match assocLookup c.lastSeen key with
    | none => .error .keyNotFound
    | some seen =>
      if c.timeToLive < now - seen then .error .dataExpired
      else
        match assocLookup c.data key with
        | none => .error .keyNotFound
        | some v => .ok v
  else
    match assocLookup c.data key with
    | none => .error .keyNotFound
    | some v => .ok v

/-- Embeds `cache.Write` at time `now`: store the value; stamp `lastSeen` only when
`timeToLive > 0`, as the code does. -/
def cacheWrite (c : CacheState) (now : Int) (key : String) (v : String) :
    CacheState :=
  { c with
    data := assocSet c.data key v
    lastSeen := if 0 < c.timeToLive then assocSet c.lastSeen key now
                else c.lastSeen }

/-- Embeds `cache.Delete`: remove the key from both maps. -/
def cacheDelete (c : CacheState) (key : String) : CacheState :=
  { c with
    data := c.data.filter (fun p => p.1 != key)
    lastSeen := c.lastSeen.filter (fun p => p.1 != key) }

/-- Embeds `cache.Entries`: `len(cache.data)` — the size of the whole `data` map,
with no expiry filtering. -/
def cacheEntries (c : CacheState) : Nat :=
  c.data.length

/-! ### The cache iterator (`store.cacheIterator`) -/

/-- Embeds `cacheIterator`: a signed index (Go `int`, starts at `-1`) over snapshots
of the keys and values. -/
structure CacheIterState where
  index : Int
  keys : List String
  values : List String

/-- Embeds `newCacheIterator`: `index = -1`, keys and values copied from the map. -/
def newCacheIterator (data : List (String × String)) : CacheIterState :=
  { index := -1
    keys := data.map (fun p => p.1)
    values := data.map (fun p => p.2) }

/-- Embeds `cacheIterator.Next`: increment the index, report whether it is still in
range. -/
def iterNext (it : CacheIterState) : Bool × CacheIterState :=
  let it' := { it with index := it.index + 1 }
  (it'.index < (it'.keys.length : Int), it')

/-- Outcome of `cacheIterator.KV`: the `ErrNoMoreItems` error, a Go runtime
panic from an out-of-range slice index, or a key/value pair. -/
inductive KVOutcome where
  | noMoreItems
  | panicIndexOutOfRange
  | ok (key : String) (value : String)
  deriving DecidableEq, Repr

/-- Embeds `cacheIterator.KV`: the guard rejects only `index >= len(keys)`; any other
index is used to subscript `values` and `keys`, and a Go slice subscript with
a negative index (or one past the end of `values`) panics. -/
def iterKV (it : CacheIterState) : KVOutcome :=
  if (it.keys.length : Int) ≤ it.index then .noMoreItems
  else if it.index < 0 then .panicIndexOutOfRange
  else
    match it.values.get? it.index.toNat, it.keys.get? it.index.toNat with
    | some v, some k => .ok k v
    | _, _ => .panicIndexOutOfRange

/-! ## Watcher package (`watcher.Watcher`, `EthBurnLogFetcher`)

All block numbers are Go `uint64`: arithmetic reduces modulo `2 ^ 64`. -/

/-- The modulus of Go `uint64` arithmetic. -/
def UINT64MOD : Nat := 2 ^ 64

/-- Embeds `uint64` addition (`last + watcher.maxBlockAdvance`). -/
def u64add (a b : Nat) : Nat := (a + b) % UINT64MOD

/-- Embeds `uint64` subtraction (`cur - watcher.confidenceInterval`, `cur - 1`); for
`a b < 2 ^ 64` this is Go's wrapping subtraction. -/
def u64sub (a b : Nat) : Nat := (a + UINT64MOD - b % UINT64MOD) % UINT64MOD

/-- The configuration fields of a `Watcher` the round logic reads. -/
structure WatcherCfg where
  maxBlockAdvance : Nat
  confidenceInterval : Nat

/-- Embeds the configuration `NewWatcher` hard-codes:
`maxBlockAdvance: 1000` and `confidenceInterval: 6`. -/
def defaultWatcherCfg : WatcherCfg :=
  { maxBlockAdvance := 1000, confidenceInterval := 6 }

/-- A burn event as the round consumes it
(`ethereumbindings.MintGatewayLogicV1LogBurn`): recipient bytes, amount,
nonce, and the transaction hash of the emitting log. -/
structure BurnEvent where
  toBytes : String
  amount : Nat
  nonce : Nat
  txHash : String
  deriving DecidableEq, Repr

/-- The sends performed by the goroutine body of
`EthBurnLogFetcher.FetchBurnLogs`:

```go
for iter.Next() {
    resultChan <- BurnLogResult{Result: *iter.Event}
    select {
    case <-ctx.Done():
        return
    }
}
```

The `select` has a single case and no `default`, so after each send it blocks
until the context is done — and the context passed by `watchLogShiftOuts`
carries a timeout, so `ctx.Done()` always eventually fires — and then
`return`s out of the loop.  Hence when the iterator yields at least one event
exactly the first event is sent, and `iter.Next` is never called again. -/
def fetchLoopSends : List BurnEvent → List BurnEvent
  | [] => []
  | e :: _ => [e]

/-- Everything `FetchBurnLogs` delivers on `resultChan` before closing it,
given the iterator's events and the errors reported by `iter.Error()` and
`iter.Close()` after the inner loop returns. -/
def fetchDelivered (events : List BurnEvent)
    (iterErr closeErr : Option String) : List (Except String BurnEvent) :=
  (fetchLoopSends events).map .ok
    ++ (match iterErr with | some e => [.error e] | none => [])
    ++ (match closeErr with | some e => [.error e] | none => [])

/-- The target-block computation of `watchLogShiftOuts` (reached only when
`last < cur`):

```go
step := last + watcher.maxBlockAdvance
if step < cur {
    cur = step
}
cur -= watcher.confidenceInterval
```
-/
def targetBlock (cfg : WatcherCfg) (cur last : Nat) : Nat :=
  let step := u64add last cfg.maxBlockAdvance
  let cur' := if step < cur then step else cur
  u64sub cur' cfg.confidenceInterval

/-- The environment of one `watchLogShiftOuts` round: results of every
external call the round makes.  `head` is `currentBlockNumber`;
`cursorReadErr` is a non-`redis.Nil` error from the cursor `Get`;
`initWriteErr` is a failure of the `Set` that initialises an absent cursor;
`fetchErr` is an error return of `FetchBurnLogs`; `results` is the content of
the event channel in arrival order; `paramsOk e` tells whether `burnToParams`
and the resolver's `SubmitTx` accept event `e` (on either failure the loop
`continue`s); `setWriteErr` is a failure of the final cursor `Set`. -/
structure RoundEnv where
  head : Except String Nat
  cursorReadErr : Bool
  initWriteErr : Bool
  fetchErr : Bool
  results : List (Except String BurnEvent)
  paramsOk : BurnEvent → Bool
  setWriteErr : Bool

/-- The event loop of `watchLogShiftOuts`: walk the channel results in order;
an error result `return`s at once (second component `false`: the final cursor
write is not reached); an accepted event is handed to the resolver.  Returns
the events handed to `resolver.SubmitTx` and whether the loop completed. -/
def processResults (paramsOk : BurnEvent → Bool) :
    List (Except String BurnEvent) → List BurnEvent × Bool
  | [] => ([], true)
  | .error _ :: _ => ([], false)
  | .ok e :: rest =>
    let (hs, completed) := processResults paramsOk rest
    ((if paramsOk e then e :: hs else hs), completed)

/-- The tail of `watchLogShiftOuts` once the head `cur` and the cursor `last`
are in hand; `st` is the persisted cursor state at that point.  Returns the
persisted cursor after the round and the events handed to the resolver. -/
def roundFrom (cfg : WatcherCfg) (env : RoundEnv) (cur last : Nat)
    (st : Option Nat) : Option Nat × List BurnEvent :=
  if cur ≤ last then (st, [])
  else
    let t := targetBlock cfg cur last
    if env.fetchErr then (st, [])
    else
      let (handed, completed) := processResults env.paramsOk env.results
      if completed then
        if env.setWriteErr then (st, handed) else (some t, handed)
      else (st, handed)

/-- One round of `watchLogShiftOuts`, acting on the persisted
`<selector>_lastCheckedBlock` value `stored` (`none` when the redis key is
absent, which `lastCheckedBlockNumber` treats as `redis.Nil`: it initialises
the key to `cur - 1`).  Every early `return` of the Go function leaves the
persisted cursor as it stands. -/
def runRound (cfg : WatcherCfg) (env : RoundEnv) (stored : Option Nat) :
    Option Nat × List BurnEvent :=
  match env.head with
  | .error _ => (stored, [])
  | .ok cur =>
    match stored with
    | none =>
      if env.initWriteErr then (stored, [])
      else roundFrom cfg env cur (u64sub cur 1) (some (u64sub cur 1))
    | some last =>
      if env.cursorReadErr then (stored, [])
      else roundFrom cfg env cur last (some last)

/-- Whether an `Except` is an error (the `res.Error != nil` test of the
event loop and the `err != nil` test on the head read). -/
def exceptIsError {ε α : Type} : Except ε α → Bool
  | .error _ => true
  | .ok _ => false

/-! ## Resolver package (`txChecker`)

`txChecker.verify` is a chain of calls into the external
`darknode/consensus/txcheck/transform` package; the embedding takes its result
as a parameter.  The store handle `db.DB` lives in `lightnode/db`, which is
not among the sources; its two queries used here are modelled from the spec. -/

/-- The Tx status column.  The spec's state machine:
`pending → confirming → confirmed → submitted → done`, with terminal
`rejected` and `failed`. -/
inductive TxStatus where
  | pending
  | confirming
  | confirmed
  | submitted
  | done
  | rejected
  | failed
  deriving DecidableEq, Repr

/-- An `abi.Tx` as the dedup logic sees it: content-addressed hash, selector
and (opaque) input. -/
structure ATx where
  hash : String
  selector : String
  input : String
  deriving DecidableEq, Repr

/-- One row of the Tx store table: the tx, its status and the gateway flag. -/
structure DBRow where
  tx : ATx
  status : TxStatus
  gateway : Bool
  deriving DecidableEq, Repr

/-- Modelled from the spec: `db.DB.Tx(hash, ...)` of package `lightnode/db` is
not among the sources; the spec requires a "select by hash" query, returning
`sql.ErrNoRows` (here `none`) when no row matches. -/
def dbTx (db : List DBRow) (h : String) : Option DBRow :=
  db.find? (fun r => r.tx.hash == h)

/-- Modelled from the spec: `db.DB.InsertTx(tx, gateway)` of package
`lightnode/db` is not among the sources; the spec requires an insert that
creates the row with `status = pending` ("if absent, insert with
status=pending") and the gateway flag. -/
def dbInsertTx (db : List DBRow) (tx : ATx) (gateway : Bool) : List DBRow :=
  db ++ [{ tx := tx, status := .pending, gateway := gateway }]

/-- Embeds `txChecker.checkDuplicate` (the body runs under `tc.mu`): look the tx up
by hash; `sql.ErrNoRows` inserts the freshly computed tx (gateway flag
`gaas != ""`) and returns it; a hit returns the stored record unchanged.
Returns the responded tx and the store after the call. -/
def checkDuplicate (db : List DBRow) (tx : ATx) (gaas : String) :
    ATx × List DBRow :=
  match dbTx db tx.hash with
  | some stored => (stored.tx, db)
  | none => (tx, dbInsertTx db tx (gaas != ""))

/-- A response of the `txChecker.Run` worker loop to one request: the
`ResponseSubmitTx` success, the `ErrorCodeInvalidParams` error from a failed
`verify`, or the `ErrorCodeInternal` error from a failed `checkDuplicate`. -/
inductive SubmitResponse where
  | ok (tx : ATx)
  | invalidParams
  | internalErr
  deriving DecidableEq, Repr

/-- The per-request body of `txChecker.Run`, with `verifyRes` the result of
`tc.verify` (whose validation chain lives in the external `transform`
package): a verify error responds `ErrorCodeInvalidParams` and `continue`s
before any store access; otherwise the tx goes through `checkDuplicate` and
the resulting record is sent to the responder.  Returns the response and the
store after the request. -/
def runSubmitTx (db : List DBRow) (verifyRes : Except Unit ATx)
    (gaas : String) : SubmitResponse × List DBRow :=
  match verifyRes with
  | .error _ => (.invalidParams, db)
  | .ok tx =>
    let (r, db') := checkDuplicate db tx gaas
    (.ok r, db')

/-- All rows of the store carry pairwise distinct hashes ("at most one row
per hash"). -/
def hashDistinct (db : List DBRow) : Prop :=
  db.Pairwise (fun a b => a.tx.hash ≠ b.tx.hash)

/-! ## Dispatcher package (`Dispatcher`, `FirstResponseIterator`) -/

/-- A `jsonrpc.Response` as the dispatcher handles it: an optional result and
an optional error envelope.  The zero value `jsonrpc.Response{}` has both
absent. -/
structure DNResponse where
  result : Option String
  error : Option String
  deriving DecidableEq, Repr

/-- Embeds `jsonrpc.Response{}` — what a peer slot contributes when
`client.SendToDarknode` fails, and what the fallthrough at the end of
`Handle` sends. -/
def emptyResponse : DNResponse := { result := none, error := none }

/-- The send of one `co.ParForAll` branch of `Handle`: a failed client call
contributes `jsonrpc.Response{}`, a successful one its response. -/
def peerSend : Except Unit DNResponse → DNResponse
  | .error _ => emptyResponse
  | .ok r => r

/-- Embeds `FirstResponseIterator.update`: done at once, with whatever response
arrived — no inspection of `res.Error`. -/
def firstResponseUpdate (res : DNResponse) (_final : Bool) :
    Bool × DNResponse :=
  (true, res)

/-- The receive loop of `Handle` (specialised to the only iterator the code
constructs, `FirstResponseIterator`): walk the responses in arrival order,
stop when `update` reports done; if the channel closes first, send
`jsonrpc.Response{}`.  `total` is `len(addrs)`, `i` the running counter. -/
def handleLoop (total : Nat) : List DNResponse → Nat → DNResponse
  | [], _ => emptyResponse
  | r :: rest, i =>
    let p := firstResponseUpdate r (i == total)
    if p.1 then p.2 else handleLoop total rest (i + 1)

/-- Embeds `Dispatcher.Handle` after the address fetch: each peer outcome is sent on
the channel (in arrival order `outcomes`) and the loop consumes them. -/
def dispatchHandle (outcomes : List (Except Unit DNResponse)) : DNResponse :=
  handleLoop outcomes.length (outcomes.map peerSend) 1

/-- A Go computation that either returns a value or panics with a message. -/
inductive GoResult (α : Type) where
  | ok (a : α)
  | panic (msg : String)
  deriving DecidableEq, Repr

/-- Embeds `Dispatcher.multiAddrs`: take the store iterator; if `Next` finds no
entry, panic `"[dispatcher] empty address store"`; parse the key with
`addr.NewMultiAddressFromString` (external — parameter `parse`); a parse
error panics `"[dispatcher] incorrectly stored multi address"`; otherwise the
singleton list of the parsed address is returned.  `storeKeys` are the keys
of `dispatcher.multiStore` in iteration order. -/
def multiAddrs (parse : String → Option String) (storeKeys : List String) :
    GoResult (List String) :=
  match storeKeys with
  | [] => .panic "[dispatcher] empty address store"
  | k :: _ =>
    match parse k with
    | none => .panic "[dispatcher] incorrectly stored multi address"
    | some a => .ok [a]

/-- Embeds `Dispatcher.Handle` end to end for a well-typed message: a panic in
`multiAddrs` propagates (there is no recover); otherwise each returned
address is called and the response loop runs. -/
def dispatcherHandle (parse : String → Option String)
    (storeKeys : List String) (send : String → Except Unit DNResponse) :
    GoResult DNResponse :=
  match multiAddrs parse storeKeys with
  | .panic m => .panic m
  | .ok addrs => .ok (dispatchHandle (addrs.map send))

/-! ## Claim C1: deduplication in `checkDuplicate` -/

/-- C1: for every `submitTx` submission that passes validation,
`checkDuplicate` (run under the checker's mutex) looks the transaction up by
hash; if a row with that hash exists, the stored record is returned and no
row is inserted; if absent, the transaction is inserted with status `pending`
and the freshly computed record is returned; resubmitting the identical
transaction yields the same canonical record, and the store keeps at most one
row per hash. -/
theorem claim_C1_checkDuplicate_dedup (db : List DBRow) (tx : ATx)
    (gaas : String) (hdist : hashDistinct db) :
    (∀ row, dbTx db tx.hash = some row →
      checkDuplicate db tx gaas = (row.tx, db)) ∧
    (dbTx db tx.hash = none →
      checkDuplicate db tx gaas =
        (tx, db ++ [{ tx := tx, status := TxStatus.pending,
                      gateway := gaas != "" }])) ∧
    hashDistinct (checkDuplicate db tx gaas).2 ∧
    checkDuplicate (checkDuplicate db tx gaas).2 tx gaas =
      ((checkDuplicate db tx gaas).1, (checkDuplicate db tx gaas).2) := by
  cases h : dbTx db tx.hash with
  | some stored =>
    refine ⟨?_, ?_, ?_, ?_⟩
    · intro row hrow
      cases hrow
      simp [checkDuplicate, h]
    · intro hn
      cases hn
    · simpa [checkDuplicate, h] using hdist
    · simp [checkDuplicate, h]
  | none =>
    have hall : ∀ r ∈ db, r.tx.hash ≠ tx.hash := by
      intro r hr
      have := List.find?_eq_none.mp h r hr
      simpa using this
    have hstep : checkDuplicate db tx gaas =
        (tx, dbInsertTx db tx (gaas != "")) := by
      simp [checkDuplicate, h]
    have hfind : dbTx (dbInsertTx db tx (gaas != "")) tx.hash =
        some { tx := tx, status := TxStatus.pending, gateway := gaas != "" } := by
      unfold dbTx at h ⊢
      unfold dbInsertTx
      rw [List.find?_append, h]
      simp
    refine ⟨?_, fun _ => hstep, ?_, ?_⟩
    · intro row hrow
      cases hrow
    · rw [hstep]
      unfold hashDistinct at hdist ⊢
      unfold dbInsertTx
      rw [List.pairwise_append]
      refine ⟨hdist, by simp, ?_⟩
      intro a ha b hb
      simp at hb
      rw [hb]
      exact hall a ha
    · rw [hstep]
      simp [checkDuplicate, hfind]

/-- Closed witness for C1: the theorem applied to the empty store and a
concrete transaction. -/
theorem claim_C1_checkDuplicate_dedup_witness :
    (∀ row, dbTx [] (ATx.mk "h" "s" "i").hash = some row →
      checkDuplicate [] (ATx.mk "h" "s" "i") "" = (row.tx, [])) ∧
    (dbTx [] (ATx.mk "h" "s" "i").hash = none →
      checkDuplicate [] (ATx.mk "h" "s" "i") "" =
        ((ATx.mk "h" "s" "i"),
          [] ++ [{ tx := ATx.mk "h" "s" "i", status := TxStatus.pending,
                   gateway := "" != "" }])) ∧
    hashDistinct (checkDuplicate [] (ATx.mk "h" "s" "i") "").2 ∧
    checkDuplicate (checkDuplicate [] (ATx.mk "h" "s" "i") "").2
        (ATx.mk "h" "s" "i") "" =
      ((checkDuplicate [] (ATx.mk "h" "s" "i") "").1,
        (checkDuplicate [] (ATx.mk "h" "s" "i") "").2) :=
  claim_C1_checkDuplicate_dedup [] (ATx.mk "h" "s" "i") "" List.Pairwise.nil

/-! ## Claim C7: validation failure writes nothing -/

/-- C7: a `submitTx` request whose `verify` fails is answered with the
invalid-params error code and the store is untouched — the failing branch of
`Run` responds and `continue`s before any store access. -/
theorem claim_C7_invalid_params_no_write (db : List DBRow) (gaas : String) :
    runSubmitTx db (Except.error ()) gaas = (SubmitResponse.invalidParams, db) :=
  rfl

/-! ## Claim C6: the "first response" aggregation -/

/-- C6 counterexample: with two peers, the first arrival an error envelope
and the second a successful response, `Handle` under `FirstResponseIterator`
delivers the error envelope, not the first non-error response. -/
theorem claim_C6_counterexample :
    dispatchHandle
        [Except.ok { result := none, error := some "boom" },
         Except.ok { result := some "x", error := none }] =
      { result := none, error := some "boom" } ∧
    ({ result := none, error := some "boom" } : DNResponse) ≠
      { result := some "x", error := none } := by
  constructor
  · rfl
  · intro h
    cases h

/-- C6 (amended): the dispatch result is the first response received,
unconditionally — `FirstResponseIterator.update` reports done for every
response, including an error envelope or the zero `jsonrpc.Response{}` that a
failed peer call contributes — and later arrivals are discarded. -/
theorem claim_C6_first_arrival_wins (o : Except Unit DNResponse)
    (os : List (Except Unit DNResponse)) (r : DNResponse) (b : Bool) :
    dispatchHandle (o :: os) = peerSend o ∧
    firstResponseUpdate r b = (true, r) :=
  ⟨rfl, rfl⟩

/-! ## Claim C9: dispatcher behaviour on broken invariants -/

/-- C9 counterexample: on an empty address store `multiAddrs` panics (and the
panic propagates out of `Handle`), so the offending state is *not* logged and
skipped. -/
theorem claim_C9_counterexample :
    multiAddrs (fun _ => none) [] =
      GoResult.panic "[dispatcher] empty address store" ∧
    dispatcherHandle (fun _ => none) [] (fun _ => Except.error ()) =
      GoResult.panic "[dispatcher] empty address store" :=
  ⟨rfl, rfl⟩

/-- C9 (amended): `multiAddrs` panics on an empty peer address store, and
panics on a stored key that fails multi-address parsing; in both cases the
panic propagates through `Handle` and halts the dispatch instead of skipping
the record. -/
theorem claim_C9_dispatcher_panics (parse : String → Option String)
    (k : String) (ks : List String)
    (send : String → Except Unit DNResponse) (h : parse k = none) :
    multiAddrs parse [] = GoResult.panic "[dispatcher] empty address store" ∧
    multiAddrs parse (k :: ks) =
      GoResult.panic "[dispatcher] incorrectly stored multi address" ∧
    dispatcherHandle parse (k :: ks) send =
      GoResult.panic "[dispatcher] incorrectly stored multi address" := by
  refine ⟨rfl, ?_, ?_⟩
  · simp [multiAddrs, h]
  · simp [dispatcherHandle, multiAddrs, h]

/-- Closed witness for C9: the amended theorem at a parser that rejects the
stored key `"addr"`. -/
theorem claim_C9_dispatcher_panics_witness :
    multiAddrs (fun _ => none) [] =
      GoResult.panic "[dispatcher] empty address store" ∧
    multiAddrs (fun _ => none) ["addr"] =
      GoResult.panic "[dispatcher] incorrectly stored multi address" ∧
    dispatcherHandle (fun _ => none) ["addr"] (fun _ => Except.error ()) =
      GoResult.panic "[dispatcher] incorrectly stored multi address" :=
  claim_C9_dispatcher_panics (fun _ => none) "addr" []
    (fun _ => Except.error ()) rfl

/-! ## Claim C8: expired cache entries -/

/-- C8 counterexample: an entry written at time 0 into a TTL-10 cache, read
at time 11: `Read` reports it expired, yet the entry is retained in the
`data` map and counted by `Entries` — there is no background sweep in the
store, so the claim that expired entries are removed and not counted fails
here. -/
theorem claim_C8_counterexample :
    cacheRead (cacheWrite (newCache 10) 0 "k" "v") 11 "k" =
      Except.error ReadErr.dataExpired ∧
    cacheEntries (cacheWrite (newCache 10) 0 "k" "v") = 1 ∧
    assocLookup (cacheWrite (newCache 10) 0 "k" "v").data "k" = some "v" := by
  refine ⟨rfl, rfl, rfl⟩

/-- C8 (amended): an entry whose `lastSeen` stamp is more than `timeToLive`
in the past is never returned — `Read` yields `ErrDataExpired` — but the
entry is retained in the `data` map and still counted by `Entries`; the
store has no background sweep, and removal happens only through `Delete` or
an overwrite. -/
theorem claim_C8_expired_entry_retained (c : CacheState) (now : Int)
    (key v : String) (seen : Int) (httl : 0 < c.timeToLive)
    (hseen : assocLookup c.lastSeen key = some seen)
    (hexp : c.timeToLive < now - seen)
    (hval : assocLookup c.data key = some v) :
    cacheRead c now key = Except.error ReadErr.dataExpired ∧
    0 < cacheEntries c := by
  constructor
  · simp only [cacheRead, if_pos httl, hseen, if_pos hexp]
  · unfold cacheEntries
    cases hd : c.data with
    | nil =>
      rw [hd] at hval
      simp [assocLookup] at hval
    | cons p ps => simp

/-- Closed witness for C8: the amended theorem at a one-entry cache. -/
theorem claim_C8_expired_entry_retained_witness :
    cacheRead { data := [("k", "v")], lastSeen := [("k", 0)],
                timeToLive := 10 } 11 "k" =
      Except.error ReadErr.dataExpired ∧
    0 < cacheEntries { data := [("k", "v")], lastSeen := [("k", 0)],
                       timeToLive := 10 } :=
  claim_C8_expired_entry_retained
    { data := [("k", "v")], lastSeen := [("k", 0)], timeToLive := 10 }
    11 "k" "v" 0 (by decide) rfl (by decide) rfl

/-! ## Claim C10: the cache iterator's `KV` before `Next` -/

/-- C10 counterexample: on the iterator of a one-entry cache, `KV` called
before the first `Next` subscripts the `values` slice at index `-1` — a Go
runtime panic — instead of returning `ErrNoMoreItems` as the claim states. -/
theorem claim_C10_counterexample :
    iterKV (newCacheIterator [("k", "v")]) = KVOutcome.panicIndexOutOfRange ∧
    iterKV (newCacheIterator [("k", "v")]) ≠ KVOutcome.noMoreItems := by
  refine ⟨rfl, ?_⟩
  intro h
  cases h

/-- C10 (amended): a fresh iterator sits at index `-1`, and `KV` before the
first `Next` is an out-of-range slice subscript (a panic) for every cache
snapshot; `KV` returns `ErrNoMoreItems` exactly when the index has reached
`len(keys)`; after a successful `Next` on a non-empty snapshot, `KV` safely
returns the first key/value pair. -/
theorem claim_C10_kv_guard (data : List (String × String))
    (it : CacheIterState) (p : String × String) (ps : List (String × String))
    (hit : (it.keys.length : Int) ≤ it.index) (hdata : data = p :: ps) :
    iterKV (newCacheIterator data) = KVOutcome.panicIndexOutOfRange ∧
    iterKV it = KVOutcome.noMoreItems ∧
    (iterNext (newCacheIterator data)).1 = true ∧
    iterKV (iterNext (newCacheIterator data)).2 = KVOutcome.ok p.1 p.2 := by
  refine ⟨?_, ?_, ?_, ?_⟩
  · unfold iterKV newCacheIterator
    have h1 : ¬ ((data.map (fun q => q.1)).length : Int) ≤ (-1 : Int) := by
      have := Int.natCast_nonneg (data.map (fun q => q.1)).length
      omega
    simp only [if_neg h1, if_pos (by omega : (-1 : Int) < 0)]
  · unfold iterKV
    rw [if_pos hit]
  · subst hdata
    simp [iterNext, newCacheIterator]
  · subst hdata
    simp [iterNext, newCacheIterator, iterKV]

/-- Closed witness for C10: the amended theorem at a one-entry snapshot and
an exhausted iterator. -/
theorem claim_C10_kv_guard_witness :
    iterKV (newCacheIterator [("k", "v")]) = KVOutcome.panicIndexOutOfRange ∧
    iterKV { index := 5, keys := [], values := [] } = KVOutcome.noMoreItems ∧
    (iterNext (newCacheIterator [("k", "v")])).1 = true ∧
    iterKV (iterNext (newCacheIterator [("k", "v")])).2 =
      KVOutcome.ok ("k", "v").1 ("k", "v").2 :=
  claim_C10_kv_guard [("k", "v")] { index := 5, keys := [], values := [] }
    ("k", "v") [] (by decide) rfl

/-! ## Claim C4: the round's target block -/

/-- C4: in a round where the head `H` exceeds the stored cursor `L`, the
target the round fetches up to (and persists) is
`min(H, L + maxAdvance) - confidenceInterval` with the defaults
`maxAdvance = 1000`, `confidenceInterval = 6` from `NewWatcher`; in
particular the target stays at least `confidenceInterval` blocks behind the
head.  The side conditions keep the `uint64` arithmetic away from wrap. -/
theorem claim_C4_target_block (H L : Nat) (hHL : L < H) (hH : H < UINT64MOD)
    (hL : L + 1000 < UINT64MOD) (hmin : 6 ≤ min H (L + 1000)) :
    targetBlock defaultWatcherCfg H L = min H (L + 1000) - 6 ∧
    targetBlock defaultWatcherCfg H L + 6 ≤ H := by
  have hmod : UINT64MOD = 18446744073709551616 := by norm_num [UINT64MOD]
  rw [hmod] at hH hL
  simp only [targetBlock, defaultWatcherCfg, u64add, u64sub, hmod]
  split_ifs with hstep <;> constructor <;> omega

/-- Closed witness for C4: head 110, cursor 100 gives target 104
(`min(110, 1100) - 6`), the spec's watcher-ingest scenario. -/
theorem claim_C4_target_block_witness :
    targetBlock defaultWatcherCfg 110 100 = min 110 (100 + 1000) - 6 ∧
    targetBlock defaultWatcherCfg 110 100 + 6 ≤ 110 :=
  claim_C4_target_block 110 100 (by norm_num)
    (by norm_num [UINT64MOD]) (by norm_num [UINT64MOD]) (by norm_num)

/-! ## Claim C5: a mid-batch failure leaves the cursor unchanged -/

/-- The event loop of `watchLogShiftOuts` does not reach the final cursor
write when some channel result is an error. -/
theorem processResults_not_completed (paramsOk : BurnEvent → Bool)
    (rs : List (Except String BurnEvent))
    (h : rs.any exceptIsError = true) :
    (processResults paramsOk rs).2 = false := by
  induction rs with
  | nil => simp at h
  | cons r rest ih =>
    cases r with
    | error e => rfl
    | ok e =>
      have hrest : rest.any exceptIsError = true := by
        simpa [exceptIsError] using h
      simp [processResults, ih hrest]

/-- C5: whichever of the listed failures occurs in a round — an error
reading the head, a non-`redis.Nil` error reading the cursor, an error
return from `FetchBurnLogs`, or an error result on the event channel — the
persisted `lastCheckedBlock` is left exactly as it was. -/
theorem claim_C5_failure_leaves_cursor (cfg : WatcherCfg) (env : RoundEnv)
    (L : Nat)
    (h : exceptIsError env.head = true ∨ env.cursorReadErr = true ∨
      env.fetchErr = true ∨ env.results.any exceptIsError = true) :
    (runRound cfg env (some L)).1 = some L := by
  unfold runRound
  cases hh : env.head with
  | error s => rfl
  | ok cur =>
    have h' : env.cursorReadErr = true ∨ env.fetchErr = true ∨
        env.results.any exceptIsError = true := by
      rcases h with h | h
      · rw [hh] at h
        simp [exceptIsError] at h
      · exact h
    cases hcr : env.cursorReadErr with
    | true => rfl
    | false =>
      have h'' : env.fetchErr = true ∨
          env.results.any exceptIsError = true := by
        rcases h' with h' | h'
        · rw [hcr] at h'
          cases h'
        · exact h'
      show (roundFrom cfg env cur L (some L)).1 = some L
      unfold roundFrom
      by_cases hcl : cur ≤ L
      · rw [if_pos hcl]
      · rw [if_neg hcl]
        cases hfe : env.fetchErr with
        | true => rfl
        | false =>
          have hr : env.results.any exceptIsError = true := by
            rcases h'' with h'' | h''
            · rw [hfe] at h''
              cases h''
            · exact h''
          simp [processResults_not_completed env.paramsOk env.results hr]

/-- Closed witness for C5: a round whose head read fails, run from cursor 7,
leaves the cursor at 7. -/
theorem claim_C5_failure_leaves_cursor_witness :
    (runRound defaultWatcherCfg
      { head := Except.error "connection refused", cursorReadErr := false,
        initWriteErr := false, fetchErr := false, results := [],
        paramsOk := fun _ => true, setWriteErr := false } (some 7)).1 =
      some 7 :=
  claim_C5_failure_leaves_cursor defaultWatcherCfg
    { head := Except.error "connection refused", cursorReadErr := false,
      initWriteErr := false, fetchErr := false, results := [],
      paramsOk := fun _ => true, setWriteErr := false } 7 (Or.inl rfl)

/-! ## Claim C2: cursor monotonicity (code bug) -/

/-- C2 fails on the code: with stored cursor `L = 100` and head `H = 101`
(the claim's own `H = L + 1` case, defaults `maxAdvance = 1000`,
`confidenceInterval = 6`), a round with an empty burn batch persists
`min(101, 1100) - 6 = 95 < 100` — `watchLogShiftOuts` writes
`cur - confidenceInterval` without ever comparing it against `last`, so the
cursor moves backwards whenever `H - L ≤ confidenceInterval - 1`. -/
theorem claim_C2_cursor_rewinds :
    (runRound defaultWatcherCfg
      { head := Except.ok 101, cursorReadErr := false, initWriteErr := false,
        fetchErr := false, results := [], paramsOk := fun _ => true,
        setWriteErr := false } (some 100)).1 = some 95 ∧ (95 : Nat) < 100 := by
  constructor
  · rfl
  · norm_num

/-! ## Claim C3: delivery of all fetched burn events (code bug) -/

/-- C3 fails on the code: the goroutine of `FetchBurnLogs` delivers only the
first event of its iterator — after one send its single-case
`select { case <-ctx.Done(): return }` blocks until the round's timeout
context fires and then returns — so of two burn events only the first is
handed to the resolver, while the round still persists the advanced cursor
(here head 110, cursor 100, target 104), losing the second burn for good. -/
theorem claim_C3_fetch_drops_events :
    fetchDelivered
        [{ toBytes := "to1", amount := 1, nonce := 1, txHash := "h1" },
         { toBytes := "to2", amount := 2, nonce := 2, txHash := "h2" }]
        none none =
      [Except.ok { toBytes := "to1", amount := 1, nonce := 1,
                   txHash := "h1" }] ∧
    fetchDelivered
        [{ toBytes := "to1", amount := 1, nonce := 1, txHash := "h1" },
         { toBytes := "to2", amount := 2, nonce := 2, txHash := "h2" }]
        none none ≠
      [Except.ok { toBytes := "to1", amount := 1, nonce := 1, txHash := "h1" },
       Except.ok { toBytes := "to2", amount := 2, nonce := 2,
                   txHash := "h2" }] ∧
    runRound defaultWatcherCfg
        { head := Except.ok 110, cursorReadErr := false,
          initWriteErr := false, fetchErr := false,
          results := fetchDelivered
            [{ toBytes := "to1", amount := 1, nonce := 1, txHash := "h1" },
             { toBytes := "to2", amount := 2, nonce := 2, txHash := "h2" }]
            none none,
          paramsOk := fun _ => true, setWriteErr := false } (some 100) =
      (some 104,
        [{ toBytes := "to1", amount := 1, nonce := 1, txHash := "h1" }]) := by
  refine ⟨rfl, ?_, rfl⟩
  intro h
  have hlen := congrArg List.length h
  simp [fetchDelivered, fetchLoopSends] at hlen

end Lightnode
